import Mathlib

/-!
Shallow embedding of `demo/lightning/checkpoint/simulated/multiprocessing_train.py`,
a benchmark script that times distributed checkpoint save/load operations of a
synthetic model against remote object storage.

Tensors are modelled by their shape, element size and a seed identifying the
random data they were created from; the benchmark only ever inspects shapes and
byte sizes.  Effectful code (the timing loop, the benchmark driver) is modelled
as trace production: each external call emits an event, timestamps are drawn
from an abstract clock indexed by read order.
-/

namespace MPTrain

/-- A torch tensor, abstracted to its shape, dtype element size and the seed of
the data it carries.  `torch.randn` produces float32 tensors (element size 4). -/
structure Tensor where
  shape : List Nat
  element_size : Nat
  seed : Nat
  deriving DecidableEq, Repr

/-- `torch.Tensor.numel`: number of elements, the product of the dimensions. -/
def Tensor.numel (t : Tensor) : Nat := t.shape.prod

/-- `torch.randn(dims...)` with a seed recording which draw this is. -/
def torch_randn (dims : List Nat) (seed : Nat) : Tensor :=
  { shape := dims, element_size := 4, seed := seed }

/-- `torch.empty_like(t)`: same shape and dtype, uninitialized data (seed 0). -/
def torch_empty_like (t : Tensor) : Tensor :=
  { shape := t.shape, element_size := t.element_size, seed := 0 }

/-- `get_tensor_size_bytes` (multiprocessing_train.py:107-109):
`tensor.element_size() * tensor.numel()`. -/
def get_tensor_size_bytes (t : Tensor) : Nat :=
  t.element_size * t.numel

/-- `nn.Linear(in_features, out_features)`: weight of shape
`[out_features, in_features]`, bias of shape `[out_features]`, both float32. -/
structure Linear where
  weight : Tensor
  bias : Tensor
  deriving DecidableEq, Repr

def nn_Linear (in_features out_features seed : Nat) : Linear :=
  { weight := torch_randn [out_features, in_features] seed
    bias := torch_randn [out_features] (seed + 1) }

/-- `SimpleModel` (multiprocessing_train.py:214-234): two linear layers `fc1`,
`fc2` of size `size × size` plus `padding_size` dummy tensors of shape
`size × size`. -/
structure SimpleModel where
  fc1 : Linear
  fc2 : Linear
  dummy_tensors : List Tensor
  deriving DecidableEq, Repr

/-- `SimpleModel.__init__(size, padding_size)` (multiprocessing_train.py:225-231). -/
def SimpleModel.init (size padding_size : Nat) : SimpleModel :=
  { fc1 := nn_Linear size size 0
    fc2 := nn_Linear size size 2
    dummy_tensors := (List.range padding_size).map fun i => torch_randn [size, size] (4 + i) }

/-- `model.state_dict()` for `SimpleModel`: the registered parameters of the two
linear submodules, in registration order.  The `dummy_tensors` list attribute is
not a parameter and does not appear. -/
def SimpleModel.state_dict (m : SimpleModel) : List (String × Tensor) :=
  [("fc1.weight", m.fc1.weight), ("fc1.bias", m.fc1.bias),
   ("fc2.weight", m.fc2.weight), ("fc2.bias", m.fc2.bias)]

/-- The state mapping built in `run_benchmark` (multiprocessing_train.py:309-311):
`state_dict = model.state_dict()` followed by
`state_dict[f'dummy_tensor_{i}'] = tensor` for each enumerated dummy tensor. -/
def benchmark_state_dict (m : SimpleModel) : List (String × Tensor) :=
  m.state_dict ++ (m.dummy_tensors.enum.map fun p => ("dummy_tensor_" ++ toString p.1, p.2))

/-- The template state dict built in `time_checkpoint_operation`
(multiprocessing_train.py:271-276): each state-dict entry replaced by
`torch.empty_like`, then `dummy_tensor_{i}` entries of `empty_like` dummies. -/
def template_state_dict (m : SimpleModel) : List (String × Tensor) :=
  (m.state_dict.map fun kv => (kv.1, torch_empty_like kv.2))
  ++ (m.dummy_tensors.enum.map fun p => ("dummy_tensor_" ++ toString p.1, torch_empty_like p.2))

/-- `os.path.join(a, b)` for POSIX paths as used here: an absolute `b` replaces
`a`; otherwise a separator is inserted unless `a` is empty or already ends in
one. -/
def os_path_join (a b : String) : String :=
  if b.startsWith "/" then b
  else if a = "" then b
  else if a.endsWith "/" then a ++ b
  else a ++ "/" ++ b

/-- The checkpoint path of iteration `i` (multiprocessing_train.py:278):
`os.path.join(filepath, f'checkpoints/ckpt_{i}.ckpt')`. -/
def checkpoint_path_of (filepath : String) (i : Nat) : String :=
  os_path_join filepath ("checkpoints/ckpt_" ++ toString i ++ ".ckpt")

/-- The two checkpoint operations the timing loop can perform. -/
inductive Op where
  | save
  | load
  deriving DecidableEq, Repr

/-- Observable events of the benchmark, in program order: external calls made
by the script plus clock reads (`time.time()`), numbered in read order. -/
inductive Event where
  | parseArgs
  | setup (rank world_size : Nat)
  | constructModel (layer_size padding_size : Nat)
  | barrier
  | clockRead (k : Nat)
  | ckptOp (op : Op) (path : String) (iter : Nat)
  | printStats (rank : Nat)
  | cleanup
  deriving DecidableEq, Repr

/-- One iteration of the timing loop in `time_checkpoint_operation`
(multiprocessing_train.py:277-291): compute the checkpoint path, barrier,
read the start time (clock read `2*i`), perform the save or load, barrier,
read the end time (clock read `2*i+1`), append the elapsed time. -/
def tco_iter (clock : Nat → ℚ) (filepath : String) (operation : Op) (i : Nat)
    (acc : List ℚ × List Event) : List ℚ × List Event :=
  let checkpoint_path := checkpoint_path_of filepath i
  let start_time := clock (2 * i)
  let end_time := clock (2 * i + 1)
  (acc.1 ++ [end_time - start_time],
   acc.2 ++ [Event.barrier, Event.clockRead (2 * i),
             Event.ckptOp operation checkpoint_path i,
             Event.barrier, Event.clockRead (2 * i + 1)])

/-- `time_checkpoint_operation` (multiprocessing_train.py:248-292), modelled as
the list of elapsed-time samples it returns together with the trace of external
calls it makes.  `clock k` is the value returned by the `k`-th `time.time()`
read of this loop. -/
def time_checkpoint_operation (clock : Nat → ℚ) (filepath : String)
    (sample_count : Nat) (operation : Op) : List ℚ × List Event :=
  (List.range sample_count).foldl (fun acc i => tco_iter clock filepath operation i acc) ([], [])

/-- `statistics.mean` on a list of rationals: the exact arithmetic mean. -/
def statistics_mean (xs : List ℚ) : ℚ :=
  xs.sum / xs.length

/-- The statistics printed on rank 0 (multiprocessing_train.py:332-342):
mean save and load times, the total byte size of the state mapping's tensors,
and that total divided (true division) by the world size. -/
structure Report where
  save_mean : ℚ
  load_mean : ℚ
  total_distributed_size_bytes : Nat
  per_rank_size : ℚ
  deriving DecidableEq, Repr

/-- `run_benchmark` (multiprocessing_train.py:295-353), modelled as the trace of
external calls of one rank together with the report it prints (present only on
rank 0).  `save_clock` and `load_clock` supply the `time.time()` values read
during the save and load timing loops respectively. -/
def run_benchmark (rank world_size layer_size : Nat) (filepath : String)
    (padding_size sample_count : Nat) (save_clock load_clock : Nat → ℚ) :
    List Event × Option Report :=
  let model := SimpleModel.init layer_size padding_size
  let state_dict := benchmark_state_dict model
  let save_run := time_checkpoint_operation save_clock filepath sample_count Op.save
  let load_run := time_checkpoint_operation load_clock filepath sample_count Op.load
  let total_distributed_size_bytes :=
    (state_dict.map fun kv => get_tensor_size_bytes kv.2).sum
  let report : Option Report :=
    if rank = 0 then
      some { save_mean := statistics_mean save_run.1
             load_mean := statistics_mean load_run.1
             total_distributed_size_bytes := total_distributed_size_bytes
             per_rank_size := (total_distributed_size_bytes : ℚ) / world_size }
    else none
  ([Event.setup rank world_size, Event.constructModel layer_size padding_size, Event.barrier]
     ++ save_run.2 ++ load_run.2
     ++ (if rank = 0 then [Event.printStats rank] else [])
     ++ [Event.cleanup],
   report)

/-- The life of one spawned rank as seen from `main`
(multiprocessing_train.py:356-374): arguments are parsed, then the rank runs
`run_benchmark`. -/
def main_trace (rank world_size layer_size : Nat) (filepath : String)
    (padding_size sample_count : Nat) (save_clock load_clock : Nat → ℚ) :
    List Event :=
  Event.parseArgs ::
    (run_benchmark rank world_size layer_size filepath padding_size sample_count
      save_clock load_clock).1

/-- The destination attributes created by `parse_args`
(multiprocessing_train.py:112-148); argparse maps `--ckpt-dir-path` to
`ckpt_dir_path`, etc. -/
def parse_args_dests : List String :=
  ["project", "ckpt_dir_path", "layer_size", "clear_kernel_cache",
   "sample_count", "padding_size", "world_size", "debug"]

/-- The attributes of the parsed namespace that `main` reads
(multiprocessing_train.py:369-373): the seven values forwarded to
`run_benchmark` through `mp.spawn`, plus `world_size` again as `nprocs`.
No other code reads the parsed namespace. -/
def main_args_read : List String :=
  ["world_size", "layer_size", "project", "ckpt_dir_path", "padding_size",
   "sample_count", "debug", "world_size"]

/-- The timing loop of `time_checkpoint_operation` with a fallible checkpoint
operation: `op_result i` is the outcome of the external save/load call of
iteration `i`.  The script installs no `try`/`except`, so a raise aborts the
loop; the returned pair is the state of the `times` list at that moment and the
propagated exception, if any (multiprocessing_train.py:277-292). -/
def tco_exc_go (op_result : Nat → Except String Unit) (clock : Nat → ℚ) :
    List Nat → List ℚ → List ℚ × Option String
  | [], times => (times, none)
  | i :: rest, times =>
    match op_result i with
    | Except.error e => (times, some e)
    | Except.ok _ =>
        tco_exc_go op_result clock rest (times ++ [clock (2 * i + 1) - clock (2 * i)])

/-- `time_checkpoint_operation` under a fallible external checkpoint call. -/
def time_checkpoint_operation_exc (op_result : Nat → Except String Unit)
    (clock : Nat → ℚ) (sample_count : Nat) : List ℚ × Option String :=
  tco_exc_go op_result clock (List.range sample_count) []

/-- A module parameter as rendered by `write_model_structure_to_file`: its
shape and the textual form of its data. -/
structure Param where
  shape : List Nat
  data : String
  deriving DecidableEq, Repr

/-- A `nn.Module` as traversed by `named_children` / `named_parameters`:
named submodules, named direct parameters, and its `repr` text. -/
inductive Module where
  | mk (children : List (String × Module)) (params : List (String × Param)) (rep : String)

def Module.children : Module → List (String × Module)
  | .mk c _ _ => c

def Module.params : Module → List (String × Param)
  | .mk _ p _ => p

def Module.rep : Module → String
  | .mk _ _ r => r

/-- Python `AttributeError`, naming the missing attribute. -/
inductive PyErr where
  | attributeError (attr : String)
  deriving DecidableEq, Repr

/-- A Python value flowing through `write_model_structure_to_file`: either the
open text file or a module.  The function's two positional parameters are
untyped at runtime, so either can receive either value. -/
inductive PyVal where
  | file
  | module (m : Module)

/-- `v.named_children()`: succeeds only on a module; the file object has no
such attribute. -/
def PyVal.named_children : PyVal → Except PyErr (List (String × Module))
  | .file => Except.error (PyErr.attributeError "named_children")
  | .module m => Except.ok m.children

/-- `v.write(s)`: succeeds only on the file object, returning the written line;
a module has no `write` attribute. -/
def py_write : PyVal → String → Except PyErr (List String)
  | PyVal.file, s => Except.ok [s]
  | PyVal.module _, _ => Except.error (PyErr.attributeError "write")

/-- The inner loop over `module.named_parameters()`
(multiprocessing_train.py:59-61): one shape line and one values line per
parameter. -/
def write_params_loop (file : PyVal) (indent : String) :
    List (String × Param) → Except PyErr (List String)
  | [] => Except.ok []
  | (param_name, param) :: rest => do
    let a ← py_write file (indent ++ "    " ++ param_name ++ ": " ++ toString param.shape ++ "\n")
    let b ← py_write file (indent ++ "      Values: " ++ param.data ++ "\n")
    let r ← write_params_loop file indent rest
    Except.ok (a ++ b ++ r)

mutual

/-- `write_model_structure_to_file(file, model, indent)`
(multiprocessing_train.py:40-61).  It iterates `model.named_children()`; for a
child with children of its own it recurses via
`write_model_structure_to_file(module, file, indent + '  ')`
(multiprocessing_train.py:56) — the child in the `file` position and the file
in the `model` position, exactly as in the source.  The result is the list of
lines written, or the first exception raised. -/
def write_model_structure_to_file (file model : PyVal) (indent : String) :
    Except PyErr (List String) :=
  match model with
  | PyVal.file => Except.error (PyErr.attributeError "named_children")
  | PyVal.module (Module.mk cs _ _) => write_children_loop file cs indent
termination_by sizeOf file + sizeOf model

/-- The body of the `for name, module in model.named_children()` loop
(multiprocessing_train.py:53-61), threading the lines written so far. -/
def write_children_loop (file : PyVal) (cs : List (String × Module))
    (indent : String) : Except PyErr (List String) :=
  match cs with
  | [] => Except.ok []
  | (name, module) :: rest => do
    let a ← py_write file (indent ++ name ++ ":\n")
    match module.children with
    | _ :: _ =>
      let b ← write_model_structure_to_file (PyVal.module module) file (indent ++ "  ")
      let r ← write_children_loop file rest indent
      Except.ok (a ++ b ++ r)
    | [] =>
      let b ← py_write file (indent ++ "  " ++ module.rep ++ "\n")
      let p ← write_params_loop file indent module.params
      let r ← write_children_loop file rest indent
      Except.ok (a ++ b ++ p ++ r)
termination_by sizeOf file + sizeOf cs

end

/-- The module tree of `nn.Linear(size, size)`: a leaf with `weight` and
`bias` parameters. -/
def nn_Linear_module (size : Nat) : Module :=
  Module.mk [] [("weight", ⟨[size, size], "randn"⟩), ("bias", ⟨[size], "randn"⟩)]
    ("Linear(in_features=" ++ toString size ++ ", out_features=" ++ toString size ++ ", bias=True)")

/-- The module tree of `SimpleModel(size, padding_size)`: children `fc1` and
`fc2` (both leaf `nn.Linear` modules); `dummy_tensors` is a plain attribute,
not a registered submodule or parameter. -/
def SimpleModel.module_tree (size : Nat) : Module :=
  Module.mk [("fc1", nn_Linear_module size), ("fc2", nn_Linear_module size)] []
    "SimpleModel"

/-- The trace block of one timing-loop iteration: barrier, start-time read,
the checkpoint operation at that iteration's path, barrier, end-time read. -/
def tco_block (clock : Nat → ℚ) (filepath : String) (operation : Op) (i : Nat) :
    List Event :=
  [Event.barrier, Event.clockRead (2 * i),
   Event.ckptOp operation (checkpoint_path_of filepath i) i,
   Event.barrier, Event.clockRead (2 * i + 1)]

/-- The checkpoint paths of a trace, in order of occurrence. -/
def ckpt_paths (tr : List Event) : List String :=
  tr.filterMap fun e =>
    match e with
    | Event.ckptOp _ path _ => some path
    | _ => none

/-- The checkpoint operations of a trace, in order of occurrence. -/
def ops_of (tr : List Event) : List Op :=
  tr.filterMap fun e =>
    match e with
    | Event.ckptOp op _ _ => some op
    | _ => none

/-- The elapsed time recorded by iteration `i` of the timing loop. -/
def elapsed (clock : Nat → ℚ) (i : Nat) : ℚ :=
  clock (2 * i + 1) - clock (2 * i)

/-- A sample wall clock whose `k`-th read returns `k` seconds. -/
def id_clock : Nat → ℚ := fun k => (k : ℚ)

/-- A Python call completed without raising. -/
def completes (r : Except PyErr (List String)) : Prop :=
  ∃ lines, r = Except.ok lines

/-! ### Structure of the timing loop -/

lemma time_checkpoint_operation_succ (clock : Nat → ℚ) (filepath : String)
    (N : Nat) (operation : Op) :
    time_checkpoint_operation clock filepath (N + 1) operation =
      tco_iter clock filepath operation N
        (time_checkpoint_operation clock filepath N operation) := by
  unfold time_checkpoint_operation
  rw [List.range_succ, List.foldl_append]
  rfl

lemma time_checkpoint_operation_times (clock : Nat → ℚ) (filepath : String)
    (operation : Op) :
    ∀ N, (time_checkpoint_operation clock filepath N operation).1 =
      (List.range N).map (elapsed clock) := by
  intro N
  induction N with
  | zero => rfl
  | succ n ih =>
      rw [time_checkpoint_operation_succ, List.range_succ]
      simp [tco_iter, ih, elapsed]

lemma time_checkpoint_operation_trace (clock : Nat → ℚ) (filepath : String)
    (operation : Op) :
    ∀ N, (time_checkpoint_operation clock filepath N operation).2 =
      (List.range N).flatMap (tco_block clock filepath operation) := by
  intro N
  induction N with
  | zero => rfl
  | succ n ih =>
      rw [time_checkpoint_operation_succ, List.range_succ]
      simp [tco_iter, ih, tco_block]

lemma ckpt_paths_append (tr tr' : List Event) :
    ckpt_paths (tr ++ tr') = ckpt_paths tr ++ ckpt_paths tr' := by
  simp [ckpt_paths, List.filterMap_append]

lemma ops_of_append (tr tr' : List Event) :
    ops_of (tr ++ tr') = ops_of tr ++ ops_of tr' := by
  simp [ops_of, List.filterMap_append]

lemma ckpt_paths_tco (clock : Nat → ℚ) (filepath : String) (operation : Op)
    (N : Nat) :
    ckpt_paths (time_checkpoint_operation clock filepath N operation).2 =
      (List.range N).map (checkpoint_path_of filepath) := by
  rw [time_checkpoint_operation_trace]
  induction (List.range N) with
  | nil => rfl
  | cons a l ih => simp [ckpt_paths, tco_block] at ih ⊢; exact ih

lemma ops_of_flatMap_blocks (clock : Nat → ℚ) (filepath : String)
    (operation : Op) :
    ∀ l : List Nat, ops_of (l.flatMap (tco_block clock filepath operation)) =
      List.replicate l.length operation := by
  intro l
  induction l with
  | nil => rfl
  | cons a t ih => simp [ops_of, tco_block, List.replicate_succ] at ih ⊢; exact ih

lemma ops_of_tco (clock : Nat → ℚ) (filepath : String) (operation : Op)
    (N : Nat) :
    ops_of (time_checkpoint_operation clock filepath N operation).2 =
      List.replicate N operation := by
  rw [time_checkpoint_operation_trace, ops_of_flatMap_blocks,
    List.length_range]

/-- **C5**: in every iteration of the timing loop, for both save and load, a
barrier is issued immediately before the start `time.time()` read, and after
the checkpoint operation another barrier is issued immediately before the end
`time.time()` read; each recorded sample is the difference of the two clock
reads bracketing exactly one checkpoint operation. -/
theorem barriers_bracket_each_timed_operation (clock : Nat → ℚ)
    (filepath : String) (sample_count : Nat) (operation : Op) :
    (time_checkpoint_operation clock filepath sample_count operation).2 =
      (List.range sample_count).flatMap (fun i =>
        [Event.barrier, Event.clockRead (2 * i),
         Event.ckptOp operation (checkpoint_path_of filepath i) i,
         Event.barrier, Event.clockRead (2 * i + 1)])
    ∧ (time_checkpoint_operation clock filepath sample_count operation).1 =
      (List.range sample_count).map (fun i => clock (2 * i + 1) - clock (2 * i)) :=
  ⟨time_checkpoint_operation_trace clock filepath operation sample_count,
   time_checkpoint_operation_times clock filepath operation sample_count⟩

/-- **C3**: the sequence of checkpoint paths written by the save run and the
sequence read by the load run are both `filepath/checkpoints/ckpt_{i}.ckpt`
for `i = 0, …, sample_count - 1`: the load of iteration `i` reads exactly the
path the save of iteration `i` wrote. -/
theorem load_paths_equal_save_paths (save_clock load_clock : Nat → ℚ)
    (filepath : String) (sample_count : Nat) :
    ckpt_paths (time_checkpoint_operation save_clock filepath sample_count Op.save).2 =
      (List.range sample_count).map (checkpoint_path_of filepath)
    ∧ ckpt_paths (time_checkpoint_operation load_clock filepath sample_count Op.load).2 =
      (List.range sample_count).map (checkpoint_path_of filepath) :=
  ⟨ckpt_paths_tco save_clock filepath Op.save sample_count,
   ckpt_paths_tco load_clock filepath Op.load sample_count⟩

/-! ### The state mapping and the template state dict -/

/-- **C1**: the state mapping passed to save consists of the model's parameter
state dict (weights and biases of `fc1` and `fc2`) extended with exactly
`padding_size` additional entries; the entry at offset `i` is named
`dummy_tensor_i`, holds the model's `i`-th padding tensor itself, and that
tensor has shape `size × size`. -/
theorem state_mapping_is_params_plus_padding (s p : Nat) :
    (benchmark_state_dict (SimpleModel.init s p)).length = 4 + p
    ∧ (benchmark_state_dict (SimpleModel.init s p)).take 4 =
        (SimpleModel.init s p).state_dict
    ∧ ∀ i, i < p → ∃ t : Tensor,
        (SimpleModel.init s p).dummy_tensors[i]? = some t
        ∧ (benchmark_state_dict (SimpleModel.init s p))[4 + i]? =
            some ("dummy_tensor_" ++ toString i, t)
        ∧ t.shape = [s, s] := by
  refine ⟨?_, rfl, ?_⟩
  · simp [benchmark_state_dict, SimpleModel.state_dict, SimpleModel.init,
      List.enum_length]
    omega
  · intro i hi
    have ht : (SimpleModel.init s p).dummy_tensors[i]? =
        some (torch_randn [s, s] (4 + i)) := by
      simp [SimpleModel.init, List.getElem?_map, List.getElem?_range, hi]
    refine ⟨torch_randn [s, s] (4 + i), ht, ?_, rfl⟩
    have hlen : (SimpleModel.init s p).state_dict.length ≤ 4 + i := by
      simp [SimpleModel.state_dict]
    rw [benchmark_state_dict, List.getElem?_append_right hlen]
    simp [SimpleModel.state_dict, List.getElem?_map, List.getElem?_enum, ht]

/-- **C2**: the template state dict built inside `time_checkpoint_operation`
has exactly the same keys, in the same order, as the state mapping passed to
save, and entrywise the same tensor shapes. -/
theorem template_matches_saved_state_dict (s p : Nat) :
    (template_state_dict (SimpleModel.init s p)).map Prod.fst =
      (benchmark_state_dict (SimpleModel.init s p)).map Prod.fst
    ∧ (template_state_dict (SimpleModel.init s p)).map (fun kv => kv.2.shape) =
      (benchmark_state_dict (SimpleModel.init s p)).map (fun kv => kv.2.shape) := by
  constructor <;>
    · simp only [template_state_dict, benchmark_state_dict, List.map_append,
        List.map_map]
      rfl

/-! ### Reported payload sizes -/

lemma sizes_through_enum (l : List Tensor) :
    ((l.enum.map fun q => ("dummy_tensor_" ++ toString q.1, q.2)).map
      fun kv => get_tensor_size_bytes kv.2).sum
    = (l.map get_tensor_size_bytes).sum := by
  rw [List.map_map]
  have h : ((fun kv : String × Tensor => get_tensor_size_bytes kv.2) ∘
      fun q : Nat × Tensor => ("dummy_tensor_" ++ toString q.1, q.2)) =
      (get_tensor_size_bytes ∘ Prod.snd) := rfl
  rw [h, ← List.map_map, List.enum_map_snd]

lemma dummy_sizes_sum (s : Nat) :
    ∀ p, (((List.range p).map fun i => torch_randn [s, s] (4 + i)).map
      get_tensor_size_bytes).sum = p * (4 * (s * s)) := by
  intro p
  induction p with
  | zero => simp
  | succ n ih =>
      rw [List.range_succ, List.map_append, List.map_append, List.sum_append, ih]
      simp [get_tensor_size_bytes, torch_randn, Tensor.numel]
      ring

lemma total_size_closed_form (s p : Nat) :
    ((benchmark_state_dict (SimpleModel.init s p)).map
      fun kv => get_tensor_size_bytes kv.2).sum
    = 4 * (2 * (s * s + s) + p * s * s) := by
  rw [benchmark_state_dict, List.map_append, List.sum_append, sizes_through_enum,
    show (SimpleModel.init s p).dummy_tensors =
      (List.range p).map (fun i => torch_randn [s, s] (4 + i)) from rfl,
    dummy_sizes_sum]
  simp [SimpleModel.state_dict, SimpleModel.init, nn_Linear, get_tensor_size_bytes,
    torch_randn, Tensor.numel]
  ring

/-- **C8**: the report printed on rank 0 carries a total payload size equal to
the sum over every tensor in the state mapping of `element_size * numel`
(in closed form `4·(2·(s² + s) + p·s²)` bytes), and a per-rank size equal to
that total divided by the world size. -/
theorem reported_sizes (s p ws N : Nat) (filepath : String)
    (save_clock load_clock : Nat → ℚ) :
    ((benchmark_state_dict (SimpleModel.init s p)).map
      fun kv => get_tensor_size_bytes kv.2).sum
      = 4 * (2 * (s * s + s) + p * s * s)
    ∧ (run_benchmark 0 ws s filepath p N save_clock load_clock).2 = some
      { save_mean :=
          statistics_mean (time_checkpoint_operation save_clock filepath N Op.save).1
        load_mean :=
          statistics_mean (time_checkpoint_operation load_clock filepath N Op.load).1
        total_distributed_size_bytes := 4 * (2 * (s * s + s) + p * s * s)
        per_rank_size :=
          ((4 * (2 * (s * s + s) + p * s * s) : Nat) : ℚ) / (ws : ℚ) } := by
  refine ⟨total_size_closed_form s p, ?_⟩
  simp [run_benchmark, total_size_closed_form s p]

/-! ### Order of phases in a benchmark run -/

lemma ops_of_cons (e : Event) (tr : List Event) :
    ops_of (e :: tr) = ops_of [e] ++ ops_of tr := by
  rw [← ops_of_append]; rfl

lemma printStats_not_mem_tco (clock : Nat → ℚ) (filepath : String)
    (operation : Op) (N r : Nat) :
    Event.printStats r ∉ (time_checkpoint_operation clock filepath N operation).2 := by
  rw [time_checkpoint_operation_trace]
  simp [List.mem_flatMap, tco_block]

/-- **C6**: each rank executes argument parsing, then process-group setup, then
model construction; the checkpoint operations it performs are exactly
`sample_count` saves followed by `sample_count` loads (every save precedes
every load); statistics are printed exactly on rank 0; and process-group
teardown is the final step. -/
theorem benchmark_phase_order (rank ws ls ps N : Nat) (filepath : String)
    (save_clock load_clock : Nat → ℚ) :
    (main_trace rank ws ls filepath ps N save_clock load_clock)[0]? =
        some Event.parseArgs
    ∧ (main_trace rank ws ls filepath ps N save_clock load_clock)[1]? =
        some (Event.setup rank ws)
    ∧ (main_trace rank ws ls filepath ps N save_clock load_clock)[2]? =
        some (Event.constructModel ls ps)
    ∧ ops_of (main_trace rank ws ls filepath ps N save_clock load_clock) =
        List.replicate N Op.save ++ List.replicate N Op.load
    ∧ (Event.printStats rank ∈
        main_trace rank ws ls filepath ps N save_clock load_clock ↔ rank = 0)
    ∧ ((run_benchmark rank ws ls filepath ps N save_clock load_clock).2.isSome ↔
        rank = 0)
    ∧ (main_trace rank ws ls filepath ps N save_clock load_clock).getLast? =
        some Event.cleanup := by
  refine ⟨rfl, rfl, rfl, ?_, ?_, ?_, ?_⟩
  · rw [main_trace, run_benchmark, ops_of_cons]
    simp only [ops_of_append]
    rw [ops_of_tco, ops_of_tco]
    by_cases hr : rank = 0 <;> simp [hr, ops_of]
  · rw [main_trace, run_benchmark]
    by_cases hr : rank = 0 <;>
      simp [hr, printStats_not_mem_tco]
  · rw [run_benchmark]
    by_cases hr : rank = 0 <;> simp [hr]
  · rw [main_trace, run_benchmark]
    simp only [← List.cons_append, List.getLast?_concat]

/-! ### Timing samples and their mean -/

/-- **C7**: with a positive sample count `N` and a monotone wall clock, each
timing loop returns exactly `N` samples, every sample is non-negative, and the
means reported on rank 0 for save and for load equal the corresponding sum of
samples divided by `N`. -/
theorem timing_samples_and_mean (save_clock load_clock : Nat → ℚ)
    (filepath : String) (ws ls ps N : Nat) (hN : 0 < N)
    (hs : Monotone save_clock) (hl : Monotone load_clock) :
    (time_checkpoint_operation save_clock filepath N Op.save).1.length = N
    ∧ (time_checkpoint_operation load_clock filepath N Op.load).1.length = N
    ∧ (∀ t ∈ (time_checkpoint_operation save_clock filepath N Op.save).1, 0 ≤ t)
    ∧ (∀ t ∈ (time_checkpoint_operation load_clock filepath N Op.load).1, 0 ≤ t)
    ∧ ∃ r, (run_benchmark 0 ws ls filepath ps N save_clock load_clock).2 = some r
        ∧ r.save_mean =
            (time_checkpoint_operation save_clock filepath N Op.save).1.sum / (N : ℚ)
        ∧ r.load_mean =
            (time_checkpoint_operation load_clock filepath N Op.load).1.sum / (N : ℚ) := by
  have hlen : ∀ (c : Nat → ℚ) (op : Op),
      (time_checkpoint_operation c filepath N op).1.length = N := by
    intro c op
    rw [time_checkpoint_operation_times]
    simp
  have hpos : ∀ (c : Nat → ℚ) (op : Op), Monotone c →
      ∀ t ∈ (time_checkpoint_operation c filepath N op).1, 0 ≤ t := by
    intro c op hc t ht
    rw [time_checkpoint_operation_times] at ht
    obtain ⟨i, _, rfl⟩ := List.mem_map.mp ht
    exact sub_nonneg.mpr (hc (by omega))
  have hmean : ∀ (c : Nat → ℚ) (op : Op),
      statistics_mean (time_checkpoint_operation c filepath N op).1 =
        (time_checkpoint_operation c filepath N op).1.sum / (N : ℚ) := by
    intro c op
    rw [statistics_mean, hlen]
  exact ⟨hlen save_clock Op.save, hlen load_clock Op.load,
    hpos save_clock Op.save hs, hpos load_clock Op.load hl,
    ⟨_, rfl, hmean save_clock Op.save, hmean load_clock Op.load⟩⟩

/-- Witness for C7 at `N = 2` with the identity clock. -/
theorem timing_samples_and_mean_witness :
    Monotone id_clock ∧
    ((time_checkpoint_operation id_clock "bucket" 2 Op.save).1.length = 2
     ∧ (time_checkpoint_operation id_clock "bucket" 2 Op.load).1.length = 2
     ∧ (∀ t ∈ (time_checkpoint_operation id_clock "bucket" 2 Op.save).1, 0 ≤ t)
     ∧ (∀ t ∈ (time_checkpoint_operation id_clock "bucket" 2 Op.load).1, 0 ≤ t)
     ∧ ∃ r, (run_benchmark 0 2 1 "bucket" 1 2 id_clock id_clock).2 = some r
         ∧ r.save_mean =
             (time_checkpoint_operation id_clock "bucket" 2 Op.save).1.sum / ((2 : Nat) : ℚ)
         ∧ r.load_mean =
             (time_checkpoint_operation id_clock "bucket" 2 Op.load).1.sum / ((2 : Nat) : ℚ)) :=
  have hm : Monotone id_clock := fun _ _ h => by
    simpa [id_clock] using Nat.cast_le.mpr h
  ⟨hm, timing_samples_and_mean id_clock id_clock "bucket" 2 1 1 2 (by norm_num) hm hm⟩

/-! ### Command-line flags -/

/-- **C4** (counterexample): the `--clear-kernel-cache` flag is parsed into the
`clear_kernel_cache` attribute but that attribute is never read again — `main`
forwards only the other seven values, so not every parsed flag is used. -/
theorem clear_kernel_cache_parsed_but_unused :
    "clear_kernel_cache" ∈ parse_args_dests ∧ "clear_kernel_cache" ∉ main_args_read := by
  decide

/-- **C4** (amended): every parsed flag other than `clear_kernel_cache` is read
by `main` and forwarded to the spawned benchmark (or used as the process
count). -/
theorem parsed_flags_used_except_clear_kernel_cache :
    ∀ f ∈ parse_args_dests, f ≠ "clear_kernel_cache" → f ∈ main_args_read := by
  decide

/-- Witness for the amended C4 at the `project` flag. -/
theorem parsed_flags_used_witness :
    "project" ∈ parse_args_dests ∧ "project" ≠ "clear_kernel_cache" ∧
      "project" ∈ main_args_read :=
  ⟨by decide, by decide,
   parsed_flags_used_except_clear_kernel_cache "project" (by decide) (by decide)⟩

/-! ### Exception propagation -/

lemma tco_exc_go_ok (op_result : Nat → Except String Unit) (clock : Nat → ℚ) :
    ∀ (l : List Nat) (acc : List ℚ), (∀ i ∈ l, op_result i = Except.ok ()) →
      tco_exc_go op_result clock l acc = (acc ++ l.map (elapsed clock), none) := by
  intro l
  induction l with
  | nil => intro acc _; simp [tco_exc_go]
  | cons a t ih =>
      intro acc h
      have ha := h a (by simp)
      simp only [tco_exc_go, ha]
      rw [ih _ (fun i hi => h i (by simp [hi]))]
      simp [elapsed]

lemma tco_exc_go_fail (op_result : Nat → Except String Unit) (clock : Nat → ℚ)
    (e : String) :
    ∀ (l1 : List Nat) (j : Nat) (l2 : List Nat) (acc : List ℚ),
      (∀ i ∈ l1, op_result i = Except.ok ()) → op_result j = Except.error e →
      tco_exc_go op_result clock (l1 ++ j :: l2) acc =
        (acc ++ l1.map (elapsed clock), some e) := by
  intro l1
  induction l1 with
  | nil => intro j l2 acc _ hj; simp [tco_exc_go, hj]
  | cons a t ih =>
      intro j l2 acc h hj
      have ha := h a (by simp)
      simp only [List.cons_append, tco_exc_go, ha, List.append_eq]
      rw [ih j l2 _ (fun i hi => h i (by simp [hi])) hj]
      simp [elapsed]

lemma range_split_at (j : Nat) :
    ∀ N, j < N → ∃ rest, List.range N = List.range j ++ j :: rest := by
  intro N
  induction N with
  | zero => omega
  | succ n ih =>
      intro hj
      rcases Nat.lt_or_ge j n with h | h
      · obtain ⟨rest, hr⟩ := ih h
        exact ⟨rest ++ [n], by rw [List.range_succ, hr]; simp⟩
      · have hjn : j = n := by omega
        subst hjn
        exact ⟨[], by rw [List.range_succ]⟩

/-- **C9**: the timing loop installs no exception handler.  If every external
checkpoint call succeeds, the run returns `sample_count` samples and raises
nothing; if the call of iteration `j` raises (after `j` successful iterations),
the exception propagates out unchanged, and the `times` list at that moment
holds exactly the `j` samples of the earlier iterations — no sample was
appended for the failing iteration. -/
theorem exceptions_propagate_uncaught (op_result : Nat → Except String Unit)
    (clock : Nat → ℚ) (N j : Nat) (e : String)
    (hok : ∀ i, i < j → op_result i = Except.ok ()) :
    (j = N →
      time_checkpoint_operation_exc op_result clock N =
        ((List.range N).map (elapsed clock), none))
    ∧ (j < N → op_result j = Except.error e →
      time_checkpoint_operation_exc op_result clock N =
        ((List.range j).map (elapsed clock), some e)) := by
  constructor
  · rintro rfl
    rw [time_checkpoint_operation_exc,
      tco_exc_go_ok op_result clock _ _ (fun i hi => hok i (List.mem_range.mp hi))]
    simp
  · intro hj hje
    obtain ⟨rest, hr⟩ := range_split_at j N hj
    rw [time_checkpoint_operation_exc, hr,
      tco_exc_go_fail op_result clock e _ j rest _
        (fun i hi => hok i (List.mem_range.mp hi)) hje]
    simp

/-- Witness for C9: the call of iteration 1 raises, so the run propagates the
exception and retains only iteration 0's sample. -/
theorem exceptions_propagate_uncaught_witness :
    time_checkpoint_operation_exc
        (fun i => if i = 1 then Except.error "boom" else Except.ok ())
        id_clock 3 =
      ([id_clock 1 - id_clock 0], some "boom") := by
  have h := (exceptions_propagate_uncaught
      (fun i => if i = 1 then Except.error "boom" else Except.ok ())
      id_clock 3 1 "boom"
      (by intro i hi; interval_cases i; rfl)).2 (by norm_num) rfl
  simpa [elapsed] using h

/-! ### The swapped recursive call in `write_model_structure_to_file` -/

lemma write_params_loop_file_ok (indent : String) :
    ∀ ps, ∃ lines, write_params_loop PyVal.file indent ps = Except.ok lines := by
  intro ps
  induction ps with
  | nil => exact ⟨[], rfl⟩
  | cons a t ih =>
      obtain ⟨n, pp⟩ := a
      obtain ⟨lines, hl⟩ := ih
      exact ⟨[indent ++ "    " ++ n ++ ": " ++ toString pp.shape ++ "\n"] ++
          ([indent ++ "      Values: " ++ pp.data ++ "\n"] ++ lines),
        by simp [write_params_loop, py_write, hl, Bind.bind, Except.bind]⟩

lemma write_children_loop_file (indent : String) :
    ∀ cs, (∃ lines, write_children_loop PyVal.file cs indent = Except.ok lines) ↔
      ∀ c ∈ cs, (c.2 : Module).children = [] := by
  intro cs
  induction cs with
  | nil => simp [write_children_loop]
  | cons a t ih =>
      obtain ⟨name, m⟩ := a
      rcases hm : m.children with _ | ⟨c0, cr⟩
      · obtain ⟨plines, hp⟩ := write_params_loop_file_ok indent m.params
        rw [List.forall_mem_cons]
        simp only [hm, true_and]
        rw [← ih]
        rcases hwc : write_children_loop PyVal.file t indent with e1 | ls <;>
          simp [write_children_loop, py_write, hm, hp, hwc, Bind.bind, Except.bind]
      · rw [List.forall_mem_cons]
        simp [write_children_loop, py_write, hm, write_model_structure_to_file,
          Bind.bind, Except.bind]

/-- **C10**: `write_model_structure_to_file` completes without raising exactly
when every direct child of the given module is a leaf.  For a nested non-leaf
child the recursive call of line 56 passes the child module where the file is
expected and the file where the module is expected, so the traversal raises
instead of recursing; `SimpleModel`, whose children `fc1` and `fc2` are leaf
linear layers, is written successfully. -/
theorem write_model_structure_completes_iff_children_leaf :
    (∀ m : Module,
      completes (write_model_structure_to_file PyVal.file (PyVal.module m) "") ↔
        ∀ c ∈ m.children, c.2.children = [])
    ∧ ∀ s : Nat,
        completes (write_model_structure_to_file PyVal.file
          (PyVal.module (SimpleModel.module_tree s)) "") := by
  have hmain : ∀ m : Module,
      completes (write_model_structure_to_file PyVal.file (PyVal.module m) "") ↔
        ∀ c ∈ m.children, c.2.children = [] := by
    intro m
    cases m with
    | mk cs ps r =>
        rw [completes]
        simp only [write_model_structure_to_file, Module.children]
        exact write_children_loop_file "" cs
  refine ⟨hmain, fun s => (hmain (SimpleModel.module_tree s)).mpr ?_⟩
  intro c hc
  fin_cases hc <;> rfl

/-- Witness for C1 at `size = 2`, `padding_size = 2`, entry `i = 1`. -/
theorem state_mapping_witness :
    (1 : Nat) < 2 ∧ ∃ t : Tensor,
      (SimpleModel.init 2 2).dummy_tensors[1]? = some t
      ∧ (benchmark_state_dict (SimpleModel.init 2 2))[4 + 1]? =
          some ("dummy_tensor_" ++ toString 1, t)
      ∧ t.shape = [2, 2] :=
  ⟨by norm_num, (state_mapping_is_params_plus_padding 2 2).2.2 1 (by norm_num)⟩

/-- Witness for C6 at rank 0 with one sample. -/
theorem benchmark_phase_order_witness :
    (run_benchmark 0 1 1 "bucket" 1 1 id_clock id_clock).2.isSome ↔ (0 : Nat) = 0 :=
  (benchmark_phase_order 0 1 1 1 1 "bucket" id_clock id_clock).2.2.2.2.2.1

/-- Witness for C10: the `SimpleModel` of layer size 3 is written without
raising. -/
theorem write_model_structure_witness :
    completes (write_model_structure_to_file PyVal.file
      (PyVal.module (SimpleModel.module_tree 3)) "") :=
  write_model_structure_completes_iff_children_leaf.2 3

end MPTrain
